import Mathlib

/-!
# Verification of the `ask-tony` widget-generation pipeline

Shallow embedding of `src/lib/agent-wrapper.ts` (retry wrapper, phase
functions, orchestrator `executeNormalPipeline`, fallback chain
`attemptWithFallbacks` / `queryAgentStream`, and the textual JSON repair
function `repairJSON`) and of `src/app/api/slack/events/route.ts`
(`verifySlackSignature` and the `POST` handler).

External collaborator modules of the repository that are not part of the
core file (`widget-validator`, `json-extractor`, `cursor-agent`,
`mock-database`, `slack`) are modelled parametrically, at the contract
level given in the specification (§3, §6): they appear as function-valued
fields of an environment record, and theorems quantify over them, adding
the spec's contract as an explicit hypothesis where a claim needs it.

Asynchrony is irrelevant to the observable behaviour (§5: one sequential
task, callbacks delivered synchronously in order), so every `async`
function is embedded as a pure function; a function that can `throw` is
embedded with result type `Except String _`, and the events pushed to the
`onUpdate` callback are collected in an explicit `List Event` in emission
order.
-/

namespace AskTony

/-! ## Data model (`widget-schema` collaborators, spec §3) -/

/-- `PlanResult` artifact of the Plan phase (spec §3 `Plan`). -/
structure PlanResult where
  widgetType : String
  dataSource : String
  searchQuery : Option String
  queryIntent : Option String
  dataStructure : String
  keyEntities : List String
  reasoning : String
deriving DecidableEq, Repr

/-- `DataResult` artifact of the Data phase (spec §3). The open `data`
mapping is modelled as an association list of string fields. -/
structure DataResult where
  data : List (String × String)
  source : Option String
  confidence : String
deriving DecidableEq, Repr

/-- `Widget` rendering artifact (spec §3 `Artifact`). -/
structure Widget where
  type : String
  data : List (String × String)
  config : Option (List (String × String))
deriving DecidableEq, Repr

/-- `ValidationResult` shape (spec §3): `valid`, an error list, and the
optional validated/normalized artifact (the extra key the validator
returns besides `valid` and `errors`, e.g. `plan`, `data`, `widget`). -/
structure Validation (α : Type) where
  valid : Bool
  errors : List String
  norm : Option α
deriving DecidableEq, Repr

/-- Result shape of the generation capability
`cursor.generateStream` / `generateStreamWithCallback` (spec §6). -/
structure GenResult where
  success : Bool
  finalText : String
  error : Option String
deriving DecidableEq, Repr

/-- The three data-source modes of the `dataMode` request parameter
(`'web-search' | 'example-data' | 'mock-database'`). The spec calls them
live-fetch, synthetic and canned-dataset respectively. -/
inductive DataMode
  | webSearch
  | exampleData
  | mockDatabase
deriving DecidableEq, Repr

/-- Events delivered through the `onUpdate` callback (spec §3
`ProgressEvent`). In `agent-wrapper.ts` the `complete` event always has a
`{widget, source}` response; `widget` is an `Option` because the code
reads the validator's optional normalized widget without a check. -/
inductive Event
  | progress (phase : String) (message : String) (progressValue : Nat)
  | planned (plan : PlanResult)
  | dataReady (dataResult : DataResult)
  | complete (widget : Option Widget) (source : Option String)
deriving DecidableEq, Repr

/-- JavaScript `a || b` for a nullable string `a` with string default:
`null`/`undefined` and the empty string are falsy. -/
def jsOr (o : Option String) (d : String) : String :=
  match o with
  | some s => if s = "" then d else s
  | none => d

/-- JavaScript `a || null` for a nullable string: the empty string
collapses to `null` (line 278: `dataResult?.source || null`). -/
def jsOrNull (o : Option String) : Option String :=
  match o with
  | some s => if s = "" then none else some s
  | none => none

/-- JavaScript template interpolation of a `string | null` value:
`null` prints as `"null"` (used for `${plan.searchQuery}`). -/
def jsStringOfNullable (o : Option String) : String :=
  match o with
  | some s => s
  | none => "null"

/-- Modelled from the spec: environment of external collaborators.
`generate*` are the per-phase generation calls (spec §6, fallible);
`extract*JSON` is `extractJSONWithRepair` from the missing
`json-extractor` module (spec §4.1: returns a parsed value or fails);
`validate*Schema` / `validateWidgetData` are the missing
`widget-validator` module (spec §3/§6: pure total validators);
`queryMockDatabase` is the missing `mock-database` module (spec §6
canned-dataset capability: `query(plan, query, model) → DataResult`,
given as a total contract). The model-name string only selects the
remote model inside these collaborators, so it is absorbed into them. -/
structure Env where
  generatePlan : String → GenResult
  generateData : String → GenResult
  generateMock : String → GenResult
  generateWidgetText : String → GenResult
  extractPlanJSON : String → Except String PlanResult
  extractDataJSON : String → Except String DataResult
  extractWidgetJSON : String → Except String Widget
  validatePlanSchema : PlanResult → Validation PlanResult
  validateDataSchema : DataResult → Validation DataResult
  validateWidgetSchema : Widget → Validation Widget
  validateWidgetData : Option Widget → Validation Widget
  queryMockDatabase : PlanResult → String → DataResult

/-! ## Retry wrapper (`retryWithValidation`, lines 286-349) -/

/-- The corrective feedback appended to the prompt on a retry
(line 299). `lastError?.message` of a JS `null` prints `undefined`;
in every reachable retry state the error is present. -/
def retryFeedback (lastError : Option String) : String :=
  "\n\nPREVIOUS ATTEMPT FAILED: " ++
    (match lastError with
     | some m => m
     | none => "undefined") ++
    "\nPlease fix these issues and return valid JSON."

/-- One attempt of the retry loop body (lines 310-327): invoke the
generation call, extract JSON, validate; a validation failure becomes a
thrown error carrying the joined error list. -/
def attemptOnce {α : Type} (call : Option String → Except String String)
    (extract : String → Except String α) (validate : α → Validation α)
    (ctx : Option String) : Except String α :=
  match call ctx with
  | Except.error e => Except.error e
  | Except.ok text =>
    match extract text with
    | Except.error e => Except.error e
    | Except.ok parsed =>
      let v := validate parsed
      if v.valid then Except.ok (v.norm.getD parsed)
      else Except.error ("Validation failed: " ++ String.intercalate ", " v.errors)

/-- The retry loop (lines 295-346). `fuel` is the number of attempts
still available (initially `maxRetries + 1`), `attempt` the 0-based
attempt counter, `lastError` the previous failure. The first component
of the result records, in order, the `retryContext` argument passed to
the generation call on each attempt — one entry per invocation of the
call. The `fuel = 0` case is the unreachable final
`throw lastError || new Error(phaseName + ' failed')` (line 348). The
fixed 500 ms inter-attempt delay has no observable effect and is not
modelled. -/
def retryGo {α : Type} (call : Option String → Except String String)
    (extract : String → Except String α) (validate : α → Validation α)
    (maxRetries : Nat) :
    Nat → Nat → Option String → List (Option String) × Except String α
  | 0, _, lastError =>
      ([], Except.error (match lastError with
        | some e => e
        | none => "phase failed"))
  | fuel + 1, attempt, lastError =>
    let ctx := if attempt > 0 then some (retryFeedback lastError) else none
    match attemptOnce call extract validate ctx with
    | Except.ok v => ([ctx], Except.ok v)
    | Except.error e =>
      if attempt = maxRetries then ([ctx], Except.error e)
      else
        let rest := retryGo call extract validate maxRetries fuel (attempt + 1) (some e)
        (ctx :: rest.1, rest.2)

/-- `retryWithValidation(llmCall, validator, phaseName, maxRetries)`:
up to `maxRetries + 1` total attempts; on exhaustion the last error is
rethrown (the spec's `PhaseExhausted` carrying the last error). -/
def retryWithValidation {α : Type} (call : Option String → Except String String)
    (extract : String → Except String α) (validate : α → Validation α)
    (maxRetries : Nat) : List (Option String) × Except String α :=
  retryGo call extract validate maxRetries (maxRetries + 1) 0 none

/-! ## Fallback artifacts (lines 355-391) -/

set_option linter.unusedVariables false in
/-- `createFallbackWidget(query, phase, error?)` (lines 355-374): the
guaranteed minimal "unable to complete" artifact; `err` is only logged. -/
def createFallbackWidget (query : String) (phase : String) (err : Option String) :
    Widget :=
  { type := "metric-card",
    data := [("label", "Unable to complete request"),
             ("value", "⚠️"),
             ("description", "I encountered an issue while " ++ phase ++
               ". Please try rephrasing your question or try again."),
             ("context", query)],
    config := some [("variant", "warning"), ("size", "md")] }

/-- `createFallbackPlan(query)` (lines 379-391): trivial single-metric
plan with the synthetic (`example-data`) data source. -/
def createFallbackPlan (query : String) : PlanResult :=
  { widgetType := "metric-card",
    dataSource := "example-data",
    searchQuery := none,
    queryIntent := none,
    dataStructure := "single-value",
    keyEntities := [query],
    reasoning := "Fallback plan due to planning failure" }

/-! ## Phase functions (lines 396-561) -/

/-- The planner's generation closure (lines 399-412): prompt is the user
query plus the optional retry context; a failed call throws
`LLM call failed: ...`. -/
def planCall (env : Env) (query : String) (retryContext : Option String) :
    Except String String :=
  let result := env.generatePlan (query ++ retryContext.getD "")
  if result.success then Except.ok result.finalText
  else Except.error ("LLM call failed: " ++ jsOr result.error "Unknown error")

/-- The retry computation driving `planWidget`: attempt-trace and outcome. -/
def planAttempts (env : Env) (query : String) :
    List (Option String) × Except String PlanResult :=
  retryWithValidation (planCall env query) env.extractPlanJSON
    env.validatePlanSchema 2

/-- Phase 1 `planWidget` (lines 396-424): retries, then degrades to the
fallback plan instead of propagating `PhaseExhausted`. -/
def planWidget (env : Env) (query : String) : PlanResult :=
  match (planAttempts env query).2 with
  | Except.ok plan => plan
  | Except.error _ => createFallbackPlan query

/-- The web-search data generation closure (lines 437-454). -/
def fetchDataCall (env : Env) (plan : PlanResult) (query : String)
    (retryContext : Option String) : Except String String :=
  let result := env.generateData
    ("Extract structured data for: " ++ query ++ "\nSearch query: " ++
      jsStringOfNullable plan.searchQuery ++ retryContext.getD "")
  if result.success then Except.ok result.finalText
  else Except.error ("LLM call failed: " ++ jsOr result.error "Unknown error")

/-- The retry computation driving `fetchData`. -/
def fetchDataAttempts (env : Env) (plan : PlanResult) (query : String) :
    List (Option String) × Except String DataResult :=
  retryWithValidation (fetchDataCall env plan query) env.extractDataJSON
    env.validateDataSchema 2

/-- Phase 2a `fetchData` (lines 430-470): on exhaustion returns the empty
low-confidence dataset. -/
def fetchData (env : Env) (plan : PlanResult) (query : String) : DataResult :=
  match (fetchDataAttempts env plan query).2 with
  | Except.ok d => d
  | Except.error _ => { data := [], source := none, confidence := "low" }

/-- The example-data generation closure (lines 483-497). -/
def generateMockDataCall (env : Env) (plan : PlanResult) (query : String)
    (retryContext : Option String) : Except String String :=
  let result := env.generateMock
    ("Generate realistic data for: \"" ++ query ++ "\"\nWidget type: " ++
      plan.widgetType ++ "\nKey entities: " ++
      String.intercalate ", " plan.keyEntities ++ retryContext.getD "")
  if result.success then Except.ok result.finalText
  else Except.error ("LLM call failed: " ++ jsOr result.error "Unknown error")

/-- The retry computation driving `generateMockData`. -/
def generateMockDataAttempts (env : Env) (plan : PlanResult) (query : String) :
    List (Option String) × Except String DataResult :=
  retryWithValidation (generateMockDataCall env plan query) env.extractDataJSON
    env.validateDataSchema 2

/-- Phase 2b `generateMockData` (lines 476-514): on exhaustion returns the
empty low-confidence dataset. -/
def generateMockData (env : Env) (plan : PlanResult) (query : String) : DataResult :=
  match (generateMockDataAttempts env plan query).2 with
  | Except.ok d => d
  | Except.error _ => { data := [], source := none, confidence := "low" }

/-- A shallow rendering of `JSON.stringify(data?.data || {})` for the
association-list model of the open data mapping. -/
def stringifyData (d : List (String × String)) : String :=
  "\x7b" ++ String.intercalate ","
    (d.map (fun kv => "\"" ++ kv.1 ++ "\":\"" ++ kv.2 ++ "\"")) ++ "\x7d"

/-- The widget generation closure (lines 527-544). -/
def generateWidgetCall (env : Env) (plan : PlanResult) (d : DataResult)
    (query : String) (retryContext : Option String) : Except String String :=
  let result := env.generateWidgetText
    ("USER: \"" ++ query ++ "\"\nWidget type: " ++ plan.widgetType ++
      "\nData structure: " ++ plan.dataStructure ++ "\nAvailable data: " ++
      stringifyData d.data ++
      "\n\nGenerate a widget JSON configuration that displays this data." ++
      retryContext.getD "")
  if result.success then Except.ok result.finalText
  else Except.error ("LLM call failed: " ++ jsOr result.error "Unknown error")

/-- The retry computation driving `generateWidget`. -/
def generateWidgetAttempts (env : Env) (plan : PlanResult) (d : DataResult)
    (query : String) : List (Option String) × Except String Widget :=
  retryWithValidation (generateWidgetCall env plan d query) env.extractWidgetJSON
    env.validateWidgetSchema 2

/-- Phase 3 `generateWidget` (lines 519-561): on exhaustion returns the
fallback widget carrying the last error message. -/
def generateWidget (env : Env) (plan : PlanResult) (d : DataResult)
    (query : String) : Widget :=
  match (generateWidgetAttempts env plan d query).2 with
  | Except.ok w => w
  | Except.error e =>
      createFallbackWidget query "generating your visualization" (some e)

/-! ## Pipeline orchestrator (`executeNormalPipeline`, lines 126-281) -/

/-- The caller's `dataMode` override of the validated plan's `dataSource`
(lines 152-160); `none` leaves the plan's own decision unchanged. -/
def applyDataModeOverride (p : PlanResult) (m : Option DataMode) : PlanResult :=
  match m with
  | some DataMode.webSearch => { p with dataSource := "web-search" }
  | some DataMode.exampleData => { p with dataSource := "example-data" }
  | some DataMode.mockDatabase => { p with dataSource := "mock-database" }
  | none => p

/-- The data-acquisition branch (lines 170-216): the stage-start progress
event and the single `DataResult` produced, selected by
`finalPlan.dataSource` (the `example-data` arm is also the `default`). -/
def dataAcquisition (env : Env) (finalPlan : PlanResult) (query : String) :
    Event × DataResult :=
  if finalPlan.dataSource = "mock-database" then
    (Event.progress "querying" "Querying database" 40,
     env.queryMockDatabase finalPlan query)
  else if finalPlan.dataSource = "web-search" then
    (Event.progress "searching" "Searching the web" 40,
     fetchData env finalPlan query)
  else
    (Event.progress "preparing" "Generating" 40,
     generateMockData env finalPlan query)

/-- `executeNormalPipeline` (lines 126-281): the events emitted before
returning or throwing, and the outcome. Throw sites: invalid plan
(line 149), reading a field of an absent normalized plan (a `TypeError`
in JS, excluded by the validator contract §3), and failed final widget
validation (line 260). The data-validation result (lines 224-231) and
the widget-data check (lines 264-271) are only logged. -/
def executeNormalPipeline (env : Env) (query : String) (dataMode : Option DataMode) :
    List Event × Except String Unit :=
  let plan := planWidget env query
  let pv := env.validatePlanSchema plan
  if pv.valid = false then
    ([Event.progress "planning" "Thinking " 10],
     Except.error ("Invalid plan: " ++ String.intercalate ", " pv.errors))
  else
    match pv.norm with
    | none =>
        ([Event.progress "planning" "Thinking " 10],
         Except.error "TypeError: Cannot read properties of undefined")
    | some validatedPlan =>
        let finalPlan := applyDataModeOverride validatedPlan dataMode
        let acq := dataAcquisition env finalPlan query
        let dataResult := acq.2
        let _dataValidation := env.validateDataSchema dataResult
        let widget := generateWidget env finalPlan dataResult query
        let wv := env.validateWidgetSchema widget
        let evs := [Event.progress "planning" "Thinking " 10,
                    Event.planned finalPlan, acq.1, Event.dataReady dataResult,
                    Event.progress "generating" "Building UI" 70,
                    Event.progress "validating" "Validating" 90]
        if wv.valid = false then
          (evs, Except.error ("Widget validation failed: " ++
            String.intercalate ", " wv.errors))
        else
          let _widgetDataCheck := env.validateWidgetData wv.norm
          (evs ++ [Event.complete wv.norm (jsOrNull dataResult.source)],
           Except.ok ())

/-! ## Fallback strategy chain (`attemptWithFallbacks`, lines 65-120) -/

/-- The terminal `complete` event of tier 3 (lines 107-119). -/
def completeFallbackEvent (query : String) : Event :=
  Event.complete
    (some (createFallbackWidget query "processing your request"
      (some "Unable to generate widget with current settings")))
    none

/-- `attemptWithFallbacks` (lines 65-120), instrumented: the first
component records the `dataMode` argument of each `executeNormalPipeline`
invocation, in order; the second is the full event stream. Tier 2 runs
only when the caller's mode was not already `example-data`; tier 3
appends the guaranteed fallback `complete` event and can itself never
fail (it is a total function of the query). -/
def attemptWithFallbacksCore (env : Env) (query : String) (m : Option DataMode) :
    List (Option DataMode) × List Event :=
  match executeNormalPipeline env query m with
  | (evs1, Except.ok _) => ([m], evs1)
  | (evs1, Except.error _) =>
    if m ≠ some DataMode.exampleData then
      match executeNormalPipeline env query (some DataMode.exampleData) with
      | (evs2, Except.ok _) =>
          ([m, some DataMode.exampleData],
           evs1 ++ Event.progress "preparing" "Trying alternative approach" 15 :: evs2)
      | (evs2, Except.error _) =>
          ([m, some DataMode.exampleData],
           evs1 ++ Event.progress "preparing" "Trying alternative approach" 15 ::
             (evs2 ++ [completeFallbackEvent query]))
    else ([m], evs1 ++ [completeFallbackEvent query])

/-- The event stream of the fallback chain. -/
def attemptWithFallbacks (env : Env) (query : String) (m : Option DataMode) :
    List Event :=
  (attemptWithFallbacksCore env query m).2

/-- Entry point `queryAgentStream` (lines 49-57): delegates to the
fallback chain. -/
def queryAgentStream (env : Env) (query : String) (m : Option DataMode) :
    List Event :=
  attemptWithFallbacks env query m

/-- Events that are `complete` events. -/
def Event.isComplete : Event → Bool
  | Event.complete _ _ => true
  | _ => false

/-- Number of `complete` events in a stream. -/
def completeCount (evs : List Event) : Nat :=
  (evs.filter Event.isComplete).length

/-- The `progress` values of the progress events of a stream, in order. -/
def progressValues (evs : List Event) : List Nat :=
  evs.filterMap (fun e => match e with
    | Event.progress _ _ p => some p
    | _ => none)

/-! ## Concrete environments used by witnesses and counterexamples -/

/-- A concrete plan artifact. -/
def plan0 : PlanResult :=
  { widgetType := "metric-card", dataSource := "example-data",
    searchQuery := none, queryIntent := none, dataStructure := "single-value",
    keyEntities := ["Acme"], reasoning := "test" }

/-- A concrete data artifact. -/
def data0 : DataResult :=
  { data := [("price", "$123.45")], source := some "web", confidence := "high" }

/-- A concrete widget artifact. -/
def widget0 : Widget :=
  { type := "metric-card", data := [("price", "$123.45")], config := none }

/-- An environment in which every collaborator succeeds. -/
def envSuccess : Env :=
  { generatePlan := fun _ => { success := true, finalText := "plan", error := none },
    generateData := fun _ => { success := true, finalText := "data", error := none },
    generateMock := fun _ => { success := true, finalText := "mock", error := none },
    generateWidgetText := fun _ => { success := true, finalText := "widget", error := none },
    extractPlanJSON := fun _ => Except.ok plan0,
    extractDataJSON := fun _ => Except.ok data0,
    extractWidgetJSON := fun _ => Except.ok widget0,
    validatePlanSchema := fun p => { valid := true, errors := [], norm := some p },
    validateDataSchema := fun d => { valid := true, errors := [], norm := some d },
    validateWidgetSchema := fun w => { valid := true, errors := [], norm := some w },
    validateWidgetData := fun _ => { valid := true, errors := [], norm := none },
    queryMockDatabase := fun _ _ => data0 }

/-- Like `envSuccess`, but the widget validator rejects everything, so the
orchestrator's only genuine failure site fires. -/
def envWidgetInvalid : Env :=
  { envSuccess with validateWidgetSchema := fun _ => { valid := false, errors := ["nope"], norm := none } }

/-- Like `envSuccess`, but the plan validator rejects everything, so the
orchestrator fails during planning on every run. -/
def envPlanInvalid : Env :=
  { envSuccess with validatePlanSchema := fun _ => { valid := false, errors := ["bad"], norm := none } }

/-- An environment in which every generation call reports failure. -/
def envAllFail : Env :=
  { envSuccess with
    generatePlan := fun _ => { success := false, finalText := "", error := some "boom" },
    generateData := fun _ => { success := false, finalText := "", error := some "boom" },
    generateMock := fun _ => { success := false, finalText := "", error := some "boom" },
    generateWidgetText := fun _ => { success := false, finalText := "", error := some "boom" } }

/-- Like `envSuccess`, but the data validator rejects everything: the data
phase degrades to its empty fallback and the orchestrator's own data check
reports invalid. -/
def envDataInvalid : Env :=
  { envSuccess with validateDataSchema := fun _ => { valid := false, errors := ["bad data"], norm := none } }

/-- The `dataSource` string a caller-supplied mode pins the plan to. -/
def dataModeString : DataMode → String
  | DataMode.webSearch => "web-search"
  | DataMode.exampleData => "example-data"
  | DataMode.mockDatabase => "mock-database"

/-! ## JSON repair (`repairJSON`, lines 589-639)

Each regex of the source is translated by hand into list-of-characters
functions; the greedy quantifiers involved never benefit from
backtracking (no whitespace character is a quote, bracket or colon, and
a `[^x]*` run can never shrink onto an `x`), so each match is the forced
greedy one. -/

/-- The character class of the JS regex `\s` (its ASCII part; the
idempotence analysis below never hinges on exotic Unicode whitespace). -/
def isJsWs (c : Char) : Bool :=
  c == ' ' || c == '\t' || c == '\n' || c == '\r' || c == '\x0b' || c == '\x0c'

/-- Match `\s*[}\]]` at the head of `l`: the whitespace run, the closing
bracket and the remainder. -/
def takeWsBracket (l : List Char) : Option (List Char × Char × List Char) :=
  match l.dropWhile isJsWs with
  | [] => none
  | br :: rest =>
    if br = '}' ∨ br = ']' then some (l.takeWhile isJsWs, br, rest) else none

/-- Strategy 1 (line 593): the global replace of `/,(\s*[}\]])/g` by
`'$1'` — drop a comma standing (up to whitespace) before a closing
brace/bracket; scanning resumes after each match and the replacement is
not rescanned, as for JS `String.replace` with a `/g` regex. Each step
consumes at least one character, so `fuel = l.length` computes the full
single pass. -/
def s1Go : Nat → List Char → List Char
  | 0, l => l
  | _, [] => []
  | fuel + 1, c :: rest =>
    if c = ',' then
      match takeWsBracket rest with
      | some (ws, br, rest') => ws ++ br :: s1Go fuel rest'
      | none => ',' :: s1Go fuel rest
    else c :: s1Go fuel rest

/-- `String.prototype.lastIndexOf` for one character: index of the last
occurrence, `-1` when absent. -/
def lastIndexOfAux (c : Char) : List Char → Int → Int → Int
  | [], _, best => best
  | x :: rest, i, best => lastIndexOfAux c rest (i + 1) (if x = c then i else best)

/-- Index of the last occurrence of `c`, `-1` when absent. -/
def lastIndexOf (c : Char) (l : List Char) : Int :=
  lastIndexOfAux c l 0 (-1)

/-- Strategy 2 (lines 595-607): when the last `"` occurs after the last
`}`/`]`, insert a closing quote directly after it, guarded by the
source's check that no quote follows (`/^[^"]*$/` on the tail). -/
def strategy2 (l : List Char) : List Char :=
  let lastQuoteIndex := lastIndexOf '"' l
  let lastBraceIndex := max (lastIndexOf '}' l) (lastIndexOf ']' l)
  if lastQuoteIndex > lastBraceIndex then
    let beforeQuote := l.take (lastQuoteIndex.toNat + 1)
    let afterQuote := l.drop (lastQuoteIndex.toNat + 1)
    if afterQuote.all (fun c => c != '"') then beforeQuote ++ '"' :: afterQuote
    else l
  else l

/-- Whole-suffix match of strategy 4's first regex
`/,\s*"[^"]*"\s*:\s*[^,}\]]*$/` (line 617): a comma, a quoted key, a
colon, then only characters outside `,`/`}`/`]` up to the end. -/
def s4aMatch : List Char → Bool
  | [] => false
  | c :: r =>
    c == ',' &&
      (match r.dropWhile isJsWs with
       | '"' :: r2 =>
         (match r2.dropWhile (fun ch => ch != '"') with
          | '"' :: r4 =>
            (match r4.dropWhile isJsWs with
             | ':' :: r6 => r6.all (fun ch => ch != ',' && ch != '}' && ch != ']')
             | _ => false)
          | _ => false)
       | _ => false)

/-- Whole-suffix match of strategy 4's second regex
`/,\s*"[^"]*"?\s*$/` (line 618): a comma, a quote, a quote-free run,
an optional closing quote, then only whitespace up to the end. -/
def s4bMatch : List Char → Bool
  | [] => false
  | c :: r =>
    c == ',' &&
      (match r.dropWhile isJsWs with
       | '"' :: r2 =>
         (match r2.dropWhile (fun ch => ch != '"') with
          | [] => true
          | '"' :: r4 => (r4.dropWhile isJsWs).isEmpty
          | _ => false)
       | _ => false)

/-- JS `String.replace` with a non-global, `$`-anchored regex and empty
replacement: delete the suffix starting at the leftmost position whose
suffix matches. -/
def replaceEndAnchored (matchAt : List Char → Bool) : List Char → List Char
  | [] => []
  | c :: rest =>
    if matchAt (c :: rest) then [] else c :: replaceEndAnchored matchAt rest

/-- Strategy 6 (lines 630-636): the global replace of
`/"([^"]*)"([^":])/g` with a callback escaping interior quotes of the
captured group. The capture `[^"]*` can never contain a quote, so the
callback's `content.includes('"')` test is always false and every match
is kept verbatim; the pass only advances the scanner past each match.
`fuel = l.length` suffices: every step consumes at least one character. -/
def s6Go : Nat → List Char → List Char
  | 0, l => l
  | _, [] => []
  | fuel + 1, c :: r =>
    if c = '"' then
      match r.dropWhile (fun ch => ch != '"') with
      | '"' :: x :: rest =>
        if x != '"' && x != ':' then
          '"' :: (r.takeWhile (fun ch => ch != '"') ++ '"' :: x :: s6Go fuel rest)
        else '"' :: s6Go fuel r
      | _ => '"' :: s6Go fuel r
    else c :: s6Go fuel r

/-- `repairJSON` on the character list: strategies 1-6 in source order.
The bracket/brace counts (lines 610-613) are taken *before* strategy 4's
deletions, exactly as in the source; strategy 5 appends the missing `]`
(arrays first) then `}`, each JS loop running zero times on a negative
difference (truncated subtraction). -/
def repairChars (l : List Char) : List Char :=
  let f1 := s1Go l.length l
  let f2 := strategy2 f1
  let openBraces := f2.count '{'
  let closeBraces := f2.count '}'
  let openBrackets := f2.count '['
  let closeBrackets := f2.count ']'
  let f3 := replaceEndAnchored s4aMatch f2
  let f4 := replaceEndAnchored s4bMatch f3
  let f5 := f4 ++ List.replicate (openBrackets - closeBrackets) ']'
      ++ List.replicate (openBraces - closeBraces) '}'
  s6Go f5.length f5

/-- `repairJSON(jsonStr)` (lines 589-639). -/
def repairJSON (jsonStr : String) : String :=
  String.mk (repairChars jsonStr.data)

/-! ## Slack events route (`src/app/api/slack/events/route.ts`)

The handler is embedded over an environment carrying the two Slack
headers, the current time (`Date.now() / 1000`, modelled at integer
second resolution), JS `Number` parsing of the timestamp header (`none`
for a non-finite result), the signing secret, the HMAC-SHA256 primitive
(an opaque byte-valued function of secret and message), and the JSON
body parse (`none` when `JSON.parse` throws). `timingSafeEqual` is
modelled by its functional value — equality of the two byte buffers —
after the handler's explicit length pre-check; its constant-time
execution property itself has no observable counterpart in a functional
embedding. -/

/-- The fields of the parsed Slack request body the handler reads. -/
structure SlackPayload where
  type : String
  challenge : Option String
  eventType : Option String
deriving DecidableEq, Repr

/-- Environment of the Slack route. -/
structure SlackEnv where
  timestampHeader : Option String
  signatureHeader : Option String
  nowSeconds : Int
  parseTimestamp : String → Option Int
  signingSecret : String
  hmacSha256 : String → String → List Nat
  parseBody : String → Option SlackPayload

/-- The handler's possible responses. -/
inductive SlackResponse
  | challengeEcho (challenge : String)
  | invalidPayload
  | invalidSignature
  | eventAccepted
  | unsupported
deriving DecidableEq, Repr

/-- JS truthiness of an optional string (absent and `""` are falsy). -/
def jsTruthy (o : Option String) : Bool :=
  match o with
  | some s => s != ""
  | none => false

/-- `String.prototype.split` with a one-character separator, on
character lists: `"a=b=c"` splits to `["a","b","c"]`, `""` to `[""]`. -/
def splitOnChar (sep : Char) : List Char → List Char → List (List Char)
  | [], acc => [acc.reverse]
  | c :: rest, acc =>
    if c = sep then acc.reverse :: splitOnChar sep rest []
    else splitOnChar sep rest (c :: acc)

/-- Value of a hex digit. -/
def hexDigitVal (c : Char) : Option Nat :=
  if '0' ≤ c ∧ c ≤ '9' then some (c.toNat - '0'.toNat)
  else if 'a' ≤ c ∧ c ≤ 'f' then some (c.toNat - 'a'.toNat + 10)
  else if 'A' ≤ c ∧ c ≤ 'F' then some (c.toNat - 'A'.toNat + 10)
  else none

/-- `Buffer.from(s, 'hex')`: decode hex pairs, stopping at the first
invalid or incomplete pair (Node semantics). -/
def hexDecodeAux : List Char → List Nat
  | c1 :: c2 :: rest =>
    (match hexDigitVal c1, hexDigitVal c2 with
     | some hi, some lo => (16 * hi + lo) :: hexDecodeAux rest
     | _, _ => [])
  | _ => []

/-- `verifySlackSignature(request, rawBody)` (lines 182-218): both
headers present, timestamp a finite number within five minutes of now,
signature of the form `v0=<hex>` (JS destructuring of `split("=")` — a
missing or empty hash is rejected), and the HMAC-SHA256 digest of
`v0:<timestamp>:<rawBody>` equal, as bytes and after a length check, to
the decoded hash. -/
def verifySlackSignature (env : SlackEnv) (rawBody : String) : Bool :=
  match env.timestampHeader, env.signatureHeader with
  | some timestamp, some signature =>
    (match env.parseTimestamp timestamp with
     | none => false
     | some requestTime =>
       if 300 < (env.nowSeconds - requestTime).natAbs then false
       else
         let parts := splitOnChar '=' signature.data []
         let version := parts.headD []
         let hash := (parts.drop 1).headD []
         if version ≠ "v0".data ∨ hash = [] then false
         else
           let digest := env.hmacSha256 env.signingSecret
             ("v0:" ++ timestamp ++ ":" ++ rawBody)
           let signatureBytes := hexDecodeAux hash
           if digest.length ≠ signatureBytes.length then false
           else decide (digest = signatureBytes))
  | _, _ => false

/-- The `POST` handler (lines 377-412): parse failure → 400; a
`url_verification` payload with a truthy challenge → echo the challenge
with no signature check; otherwise a failed signature check → 401; an
`app_mention` event callback → 200 (the mention itself is handled
asynchronously); anything else → 400. -/
def POST (env : SlackEnv) (rawBody : String) : SlackResponse :=
  match env.parseBody rawBody with
  | none => SlackResponse.invalidPayload
  | some payload =>
    if payload.type = "url_verification" ∧ jsTruthy payload.challenge then
      SlackResponse.challengeEcho (payload.challenge.getD "")
    else if verifySlackSignature env rawBody = false then
      SlackResponse.invalidSignature
    else if payload.type = "event_callback" ∧ payload.eventType = some "app_mention" then
      SlackResponse.eventAccepted
    else
      SlackResponse.unsupported

/-- The claim's acceptance condition, spelled out from its words: the
request carries a timestamp header that parses to a finite number within
five minutes of the current time, and a `v0` signature whose hex hash is
non-empty and decodes to exactly the HMAC-SHA256 digest of
`v0:<timestamp>:<rawBody>` under the signing secret. (Definition written
to the claim's wording, for comparison with `verifySlackSignature`.) -/
def signatureAcceptedSpec (env : SlackEnv) (rawBody : String) : Prop :=
  match env.timestampHeader, env.signatureHeader with
  | some timestamp, some signature =>
    (match env.parseTimestamp timestamp with
     | none => False
     | some requestTime =>
       (env.nowSeconds - requestTime).natAbs ≤ 300 ∧
       (splitOnChar '=' signature.data []).headD [] = "v0".data ∧
       ((splitOnChar '=' signature.data []).drop 1).headD [] ≠ [] ∧
       env.hmacSha256 env.signingSecret ("v0:" ++ timestamp ++ ":" ++ rawBody) =
         hexDecodeAux (((splitOnChar '=' signature.data []).drop 1).headD []))
  | _, _ => False

/-- `env` with every signature-relevant input replaced (used to state
that the URL-verification path performs no signature verification). -/
def scrubSignatureInputs (env : SlackEnv) (tsH sigH : Option String) (now : Int)
    (hm : String → String → List Nat) (secret : String)
    (pt : String → Option Int) : SlackEnv :=
  { env with
    timestampHeader := tsH
    signatureHeader := sigH
    nowSeconds := now
    hmacSha256 := hm
    signingSecret := secret
    parseTimestamp := pt }

/-- A concrete Slack environment with a valid signature on an
`app_mention` event callback. -/
def slackEnv0 : SlackEnv :=
  { timestampHeader := some "100",
    signatureHeader := some "v0=0102",
    nowSeconds := 150,
    parseTimestamp := fun s => if s = "100" then some 100 else none,
    signingSecret := "secret",
    hmacSha256 := fun _ _ => [1, 2],
    parseBody := fun _ =>
      some { type := "event_callback", challenge := none,
             eventType := some "app_mention" } }

/-! ## Structure of a single orchestrator run -/

/-- The data-acquisition stage always starts with a progress-40 event. -/
theorem dataAcquisition_fst (env : Env) (fp : PlanResult) (q : String) :
    ∃ ph msg, (dataAcquisition env fp q).1 = Event.progress ph msg 40 := by
  unfold dataAcquisition
  split
  · exact ⟨_, _, rfl⟩
  · split
    · exact ⟨_, _, rfl⟩
    · exact ⟨_, _, rfl⟩

/-- Case analysis of a single `executeNormalPipeline` run: it either stops
during planning (invalid or absent normalized plan, no `complete` event),
stops at the final widget validation (no `complete` event), or succeeds
with the full six-stage event list terminated by one `complete` event. -/
theorem pipeline_shape (env : Env) (q : String) (m : Option DataMode) :
    (∃ err, executeNormalPipeline env q m =
        ([Event.progress "planning" "Thinking " 10], Except.error err) ∧
      ((env.validatePlanSchema (planWidget env q)).valid = false ∨
       (env.validatePlanSchema (planWidget env q)).norm = none)) ∨
    (∃ fp ph msg d s,
      executeNormalPipeline env q m =
        ([Event.progress "planning" "Thinking " 10, Event.planned fp,
          Event.progress ph msg 40, Event.dataReady d,
          Event.progress "generating" "Building UI" 70,
          Event.progress "validating" "Validating" 90],
         Except.error ("Widget validation failed: " ++ s))) ∨
    (∃ fp ph msg d w src,
      executeNormalPipeline env q m =
        ([Event.progress "planning" "Thinking " 10, Event.planned fp,
          Event.progress ph msg 40, Event.dataReady d,
          Event.progress "generating" "Building UI" 70,
          Event.progress "validating" "Validating" 90,
          Event.complete w src],
         Except.ok ()) ∧
      src = jsOrNull d.source) := by
  simp only [executeNormalPipeline]
  split
  · next hv => exact Or.inl ⟨_, rfl, Or.inl hv⟩
  · next hv =>
    split
    · next hn => exact Or.inl ⟨_, rfl, Or.inr hn⟩
    · next vp hn =>
      obtain ⟨ph, msg, hacq⟩ := dataAcquisition_fst env (applyDataModeOverride vp m) q
      rw [hacq]
      split
      · next hw => exact Or.inr (Or.inl ⟨_, ph, msg, _, _, rfl⟩)
      · next hw => exact Or.inr (Or.inr ⟨_, ph, msg, _, _, _, rfl, rfl⟩)

/-- C1: for any input user query, any caller data mode, and any behaviour
of the external collaborators (so in particular for any failure injected
into any phase's generation call), the entry point `queryAgentStream`
emits exactly one `complete` event, as the last event of the stream. The
entry point is a total function of its environment — every internal
throw site is caught by the fallback chain, whose tier-3 branch only
evaluates the total `createFallbackWidget` — so it never raises a
failure to its caller. -/
theorem c1_pipeline_totality (env : Env) (q : String) (m : Option DataMode) :
    completeCount (queryAgentStream env q m) = 1 ∧
    ∃ w src, (queryAgentStream env q m).getLast? = some (Event.complete w src) := by
  unfold queryAgentStream attemptWithFallbacks attemptWithFallbacksCore
  have hshape2 := pipeline_shape env q (some DataMode.exampleData)
  rcases pipeline_shape env q m with ⟨e1, h1, -⟩ | ⟨fp, ph, msg, d, s, h1⟩ |
    ⟨fp, ph, msg, d, w, src, h1, -⟩
  · rw [h1]
    by_cases hm : m = some DataMode.exampleData
    · simp [hm, completeCount, Event.isComplete, completeFallbackEvent]
    · rcases hshape2 with ⟨e2, h2, -⟩ | ⟨fp2, ph2, msg2, d2, s2, h2⟩ |
        ⟨fp2, ph2, msg2, d2, w2, src2, h2, -⟩ <;>
        simp [hm, h2, completeCount, Event.isComplete, completeFallbackEvent]
  · rw [h1]
    by_cases hm : m = some DataMode.exampleData
    · simp [hm, completeCount, Event.isComplete, completeFallbackEvent]
    · rcases hshape2 with ⟨e2, h2, -⟩ | ⟨fp2, ph2, msg2, d2, s2, h2⟩ |
        ⟨fp2, ph2, msg2, d2, w2, src2, h2, -⟩ <;>
        simp [hm, h2, completeCount, Event.isComplete, completeFallbackEvent]
  · rw [h1]
    simp [completeCount, Event.isComplete]

/-! ## Claim C2: retry bound and feedback -/

/-- C2: if every attempt of a phase is invalid (each combined
call/extract/validate step fails, with `errOf ctx` the error produced
for retry context `ctx`), then `retryWithValidation` with `maxRetries = 2`
invokes the generation call exactly three times — attempt 0 with no
retry context, each later attempt with the feedback string embedding the
previous attempt's error message — and then rethrows the last error (the
spec's `PhaseExhausted` carrying the last error). -/
theorem c2_retry_exhaustion {α : Type} (call : Option String → Except String String)
    (extract : String → Except String α) (validate : α → Validation α)
    (errOf : Option String → String)
    (h : ∀ ctx, attemptOnce call extract validate ctx = Except.error (errOf ctx)) :
    retryWithValidation call extract validate 2 =
      ([none,
        some (retryFeedback (some (errOf none))),
        some (retryFeedback (some (errOf (some (retryFeedback (some (errOf none)))))))],
       Except.error
         (errOf (some (retryFeedback
           (some (errOf (some (retryFeedback (some (errOf none)))))))))) := by
  simp [retryWithValidation, retryGo, h]

/-- Witness for C2: a phase whose extraction step always raises
`ParseError` is invoked three times — the first with no context, the next
two with the feedback string embedding the previous error — and then the
last error is rethrown. -/
theorem c2_retry_exhaustion_witness :
    retryWithValidation (fun _ => Except.ok "x")
      (fun _ => (Except.error "ParseError" : Except String Nat))
      (fun _ => { valid := false, errors := [], norm := none }) 2 =
      ([none,
        some (retryFeedback (some "ParseError")),
        some (retryFeedback (some "ParseError"))],
       Except.error "ParseError") :=
  c2_retry_exhaustion (fun _ => Except.ok "x")
    (fun _ => (Except.error "ParseError" : Except String Nat))
    (fun _ => { valid := false, errors := [], norm := none })
    (fun _ => "ParseError") (fun _ => rfl)

/-! ## Claim C3: the orchestrator's single genuine failure site -/

/-- A successful attempt returns a value the phase validator accepted:
either the validator's normalized artifact or the parsed value itself. -/
theorem attemptOnce_ok {α : Type} (call : Option String → Except String String)
    (extract : String → Except String α) (validate : α → Validation α)
    (ctx : Option String) (v : α)
    (h : attemptOnce call extract validate ctx = Except.ok v) :
    ∃ a, (validate a).valid = true ∧ v = (validate a).norm.getD a := by
  simp only [attemptOnce] at h
  cases hc : call ctx with
  | error e => simp [hc] at h
  | ok text =>
    simp only [hc] at h
    cases he : extract text with
    | error e => simp [he] at h
    | ok parsed =>
      simp only [he] at h
      by_cases hv : (validate parsed).valid = true
      · refine ⟨parsed, hv, ?_⟩
        simp [hv] at h
        exact h.symm
      · simp [hv] at h

/-- Unfolding equation of `retryGo` at zero fuel. -/
theorem retryGo_zero {α : Type} (call : Option String → Except String String)
    (extract : String → Except String α) (validate : α → Validation α)
    (maxRetries attempt : Nat) (lastError : Option String) :
    retryGo call extract validate maxRetries 0 attempt lastError =
      ([], Except.error (match lastError with
        | some e => e
        | none => "phase failed")) := rfl

/-- Unfolding equation of `retryGo` at positive fuel. -/
theorem retryGo_succ {α : Type} (call : Option String → Except String String)
    (extract : String → Except String α) (validate : α → Validation α)
    (maxRetries fuel attempt : Nat) (lastError : Option String) :
    retryGo call extract validate maxRetries (fuel + 1) attempt lastError =
      match attemptOnce call extract validate
          (if attempt > 0 then some (retryFeedback lastError) else none) with
      | Except.ok v =>
          ([if attempt > 0 then some (retryFeedback lastError) else none],
           Except.ok v)
      | Except.error e =>
        if attempt = maxRetries then
          ([if attempt > 0 then some (retryFeedback lastError) else none],
           Except.error e)
        else
          ((if attempt > 0 then some (retryFeedback lastError) else none) ::
              (retryGo call extract validate maxRetries fuel (attempt + 1) (some e)).1,
            (retryGo call extract validate maxRetries fuel (attempt + 1) (some e)).2) := rfl

/-- A successful retry loop returns a value its validator accepted. -/
theorem retryGo_ok_validated {α : Type} (call : Option String → Except String String)
    (extract : String → Except String α) (validate : α → Validation α)
    (maxRetries : Nat) :
    ∀ fuel attempt lastErr v,
      (retryGo call extract validate maxRetries fuel attempt lastErr).2 = Except.ok v →
      ∃ a, (validate a).valid = true ∧ v = (validate a).norm.getD a := by
  intro fuel
  induction fuel with
  | zero =>
    intro attempt lastErr v h
    rw [retryGo_zero] at h
    simp at h
  | succ f ih =>
    intro attempt lastErr v h
    rw [retryGo_succ] at h
    cases ha : attemptOnce call extract validate
        (if attempt > 0 then some (retryFeedback lastErr) else none) with
    | ok v' =>
      simp only [ha] at h
      simp at h
      subst h
      exact attemptOnce_ok _ _ _ _ _ ha
    | error e =>
      simp only [ha] at h
      by_cases hm : attempt = maxRetries
      · simp [hm] at h
      · simp [hm] at h
        exact ih (attempt + 1) (some e) v h

/-- Under the validator contract of spec §3 — a validated (normalized)
plan is itself valid, and the fallback plan is a valid plan — the Plan
phase always hands the orchestrator a plan the plan validator accepts. -/
theorem planWidget_validated (env : Env) (q : String)
    (hStable : ∀ a, (env.validatePlanSchema a).valid = true →
        (env.validatePlanSchema ((env.validatePlanSchema a).norm.getD a)).valid = true)
    (hFallback : (env.validatePlanSchema (createFallbackPlan q)).valid = true) :
    (env.validatePlanSchema (planWidget env q)).valid = true := by
  unfold planWidget
  cases hp : (planAttempts env q).2 with
  | ok p =>
    have hp' : (retryGo (planCall env q) env.extractPlanJSON env.validatePlanSchema
        2 3 0 none).2 = Except.ok p := hp
    obtain ⟨a, hval, hv⟩ := retryGo_ok_validated _ _ _ _ _ _ _ _ hp'
    rw [hv]
    exact hStable a hval
  | error e => exact hFallback

/-- C3: under the spec §3 validator contract (a valid result carries its
normalized artifact; the normalized artifact is itself valid; the
fallback plan is valid), the only error `executeNormalPipeline` can
propagate to the fallback chain is the final widget-schema validation
failure of the Render phase — every propagated error message is
`Widget validation failed: ...` from line 260; no other stage lets a
failure escape. -/
theorem c3_single_failure_site (env : Env) (q : String) (m : Option DataMode)
    (hWF : ∀ a, (env.validatePlanSchema a).valid = true →
        ((env.validatePlanSchema a).norm).isSome = true)
    (hStable : ∀ a, (env.validatePlanSchema a).valid = true →
        (env.validatePlanSchema ((env.validatePlanSchema a).norm.getD a)).valid = true)
    (hFallback : (env.validatePlanSchema (createFallbackPlan q)).valid = true) :
    ∀ e, (executeNormalPipeline env q m).2 = Except.error e →
      ∃ s, e = "Widget validation failed: " ++ s := by
  intro e he
  have hval := planWidget_validated env q hStable hFallback
  rcases pipeline_shape env q m with ⟨err, h1, hbad⟩ | ⟨fp, ph, msg, d, s, h1⟩ |
    ⟨fp, ph, msg, d, w, src, h1, -⟩
  · rcases hbad with hb | hb
    · rw [hval] at hb; cases hb
    · have hs := hWF _ hval
      rw [hb] at hs
      cases hs
  · rw [h1] at he
    simp at he
    exact ⟨s, he.symm⟩
  · rw [h1] at he
    cases he

/-- Witness for C3: a concrete environment whose only defect is a widget
validator that rejects everything; the orchestrator's propagated error is
precisely a final widget-validation failure. -/
theorem c3_witness :
    ∃ s, "Widget validation failed: nope" = "Widget validation failed: " ++ s :=
  c3_single_failure_site envWidgetInvalid "q" none
    (fun _ _ => rfl) (fun _ _ => rfl) rfl
    "Widget validation failed: nope" rfl

/-! ## Claim C4: fallback tiering -/

/-- C4: if the first orchestrator run fails, then — exactly when the
caller's first attempt was not already invoked with the cheapest mode
`example-data` — the orchestrator is re-run exactly once, forcibly
pinned to `example-data` (the invocation trace is
`[m, some exampleData]`), and the whole event stream of that second run
is emitted before any tier-3 synthetic `complete` artifact; when the
first attempt was already `example-data`, there is no second run and
tier 3 follows immediately. -/
theorem c4_fallback_tiering (env : Env) (q : String) (m : Option DataMode)
    (err : String)
    (hfail : (executeNormalPipeline env q m).2 = Except.error err) :
    (m ≠ some DataMode.exampleData →
      (attemptWithFallbacksCore env q m).1 = [m, some DataMode.exampleData] ∧
      (attemptWithFallbacksCore env q m).2 =
        (executeNormalPipeline env q m).1 ++
          Event.progress "preparing" "Trying alternative approach" 15 ::
            ((executeNormalPipeline env q (some DataMode.exampleData)).1 ++
              match (executeNormalPipeline env q (some DataMode.exampleData)).2 with
              | Except.ok _ => []
              | Except.error _ => [completeFallbackEvent q])) ∧
    (m = some DataMode.exampleData →
      (attemptWithFallbacksCore env q m).1 = [m] ∧
      (attemptWithFallbacksCore env q m).2 =
        (executeNormalPipeline env q m).1 ++ [completeFallbackEvent q]) := by
  have h1 : executeNormalPipeline env q m =
      ((executeNormalPipeline env q m).1, Except.error err) := by
    rw [← hfail]
  constructor
  · intro hm
    unfold attemptWithFallbacksCore
    rw [h1]
    cases h2 : executeNormalPipeline env q (some DataMode.exampleData) with
    | mk evs2 r2 =>
      cases r2 with
      | ok u => simp [hm]
      | error e2 => simp [hm]
  · intro hm
    unfold attemptWithFallbacksCore
    rw [h1]
    simp [hm]

/-- Witness for C4: with a plan validator that rejects everything the
first run fails, and the fallback chain re-runs the orchestrator exactly
once, pinned to `example-data`. -/
theorem c4_witness :
    (attemptWithFallbacksCore envPlanInvalid "q" none).1 =
      [none, some DataMode.exampleData] :=
  ((c4_fallback_tiering envPlanInvalid "q" none "Invalid plan: bad" rfl).1
    (by simp)).1

/-! ## Claim C5: progress values -/

/-- C5, counterexample to the claim as stated: for a request that
completes successfully, the emitted progress values are
`[10, 40, 70, 90]`; no progress value `100` is ever emitted and the
sequence does not end at `100` — the stream ends with the `complete`
event instead. -/
theorem c5_counterexample :
    (executeNormalPipeline envSuccess "stock price of Acme Corp" none).2 =
      Except.ok () ∧
    progressValues (queryAgentStream envSuccess "stock price of Acme Corp" none) =
      [10, 40, 70, 90] ∧
    (progressValues
      (queryAgentStream envSuccess "stock price of Acme Corp" none)).getLast? =
      some 90 ∧
    ¬ (90 : Nat) = 100 := by
  refine ⟨rfl, rfl, rfl, by decide⟩

/-- C5 as amended: for a request whose orchestrator run succeeds, the
progress values emitted at the stage starts are exactly
`10, 40, 70, 90` — monotonically non-decreasing — and the stream ends
with the single terminal `complete` event (there is no progress-100
event). -/
theorem c5_amended_progress (env : Env) (q : String) (m : Option DataMode)
    (h : (executeNormalPipeline env q m).2 = Except.ok ()) :
    progressValues (executeNormalPipeline env q m).1 = [10, 40, 70, 90] ∧
    List.Chain' (· ≤ ·) (progressValues (executeNormalPipeline env q m).1) ∧
    ∃ w src, ((executeNormalPipeline env q m).1).getLast? =
      some (Event.complete w src) := by
  rcases pipeline_shape env q m with ⟨e1, h1, -⟩ | ⟨fp, ph, msg, d, s, h1⟩ |
    ⟨fp, ph, msg, d, w, src, h1, -⟩
  · rw [h1] at h; cases h
  · rw [h1] at h; cases h
  · rw [h1]
    refine ⟨by simp [progressValues], by simp [progressValues], w, src, by simp⟩

/-- Witness for the amended C5 at a concrete successful environment. -/
theorem c5_amended_witness :
    progressValues (executeNormalPipeline envSuccess "q" none).1 =
      [10, 40, 70, 90] :=
  (c5_amended_progress envSuccess "q" none rfl).1

/-! ## Claim C6: phase-local degradation on exhaustion -/

/-- C6: when its retry budget is exhausted (`PhaseExhausted`, i.e. the
retry computation ends in an error), each phase function degrades
locally and returns without raising past its boundary: `planWidget`
returns the trivial single-metric fallback plan with the synthetic
(`example-data`) data source; both LLM data phases return the empty
dataset with confidence `low` and source `null`; `generateWidget`
returns the minimal "Unable to complete request" artifact carrying the
original query as its `context`. -/
theorem c6_phase_degradation (env : Env) (q : String) (plan : PlanResult)
    (d : DataResult) :
    (∀ e, (planAttempts env q).2 = Except.error e →
      planWidget env q = createFallbackPlan q) ∧
    ((createFallbackPlan q).widgetType = "metric-card" ∧
      (createFallbackPlan q).dataSource = "example-data" ∧
      (createFallbackPlan q).dataStructure = "single-value" ∧
      (createFallbackPlan q).keyEntities = [q]) ∧
    (∀ e, (fetchDataAttempts env plan q).2 = Except.error e →
      fetchData env plan q = { data := [], source := none, confidence := "low" }) ∧
    (∀ e, (generateMockDataAttempts env plan q).2 = Except.error e →
      generateMockData env plan q =
        { data := [], source := none, confidence := "low" }) ∧
    (∀ e, (generateWidgetAttempts env plan d q).2 = Except.error e →
      generateWidget env plan d q =
        createFallbackWidget q "generating your visualization" (some e)) ∧
    (∀ ph er, (createFallbackWidget q ph er).type = "metric-card" ∧
      ("label", "Unable to complete request") ∈ (createFallbackWidget q ph er).data ∧
      ("context", q) ∈ (createFallbackWidget q ph er).data) := by
  refine ⟨?_, ⟨rfl, rfl, rfl, rfl⟩, ?_, ?_, ?_, ?_⟩
  · intro e he; unfold planWidget; rw [he]
  · intro e he; unfold fetchData; rw [he]
  · intro e he; unfold generateMockData; rw [he]
  · intro e he; unfold generateWidget; rw [he]
  · intro ph er
    exact ⟨rfl, by simp [createFallbackWidget], by simp [createFallbackWidget]⟩

/-- Witness for C6: with every generation call failing, the Plan phase
returns the fallback plan and the example-data phase returns the empty
low-confidence dataset. -/
theorem c6_witness :
    planWidget envAllFail "q" = createFallbackPlan "q" ∧
    generateMockData envAllFail plan0 "q" =
      { data := [], source := none, confidence := "low" } :=
  ⟨(c6_phase_degradation envAllFail "q" plan0 data0).1 "LLM call failed: boom" rfl,
   (c6_phase_degradation envAllFail "q" plan0 data0).2.2.2.1 "LLM call failed: boom" rfl⟩

/-! ## Claim C7: the caller's data-source override -/

/-- C7: a caller-supplied data mode replaces the validated plan's
`dataSource` with exactly that mode; with no override the plan is used
unchanged; no other field of the validated plan is modified; and the
orchestrator applies the override before the data-acquisition branch —
the `plan` event (emitted before data acquisition) already carries the
overridden plan. -/
theorem c7_data_source_override (p : PlanResult) :
    (∀ m : DataMode,
      (applyDataModeOverride p (some m)).dataSource = dataModeString m) ∧
    applyDataModeOverride p none = p ∧
    (∀ m : Option DataMode,
      (applyDataModeOverride p m).widgetType = p.widgetType ∧
      (applyDataModeOverride p m).searchQuery = p.searchQuery ∧
      (applyDataModeOverride p m).queryIntent = p.queryIntent ∧
      (applyDataModeOverride p m).dataStructure = p.dataStructure ∧
      (applyDataModeOverride p m).keyEntities = p.keyEntities ∧
      (applyDataModeOverride p m).reasoning = p.reasoning) ∧
    (∀ env q dm p0,
      (env.validatePlanSchema (planWidget env q)).valid = true →
      (env.validatePlanSchema (planWidget env q)).norm = some p0 →
      ((executeNormalPipeline env q dm).1).get? 1 =
        some (Event.planned (applyDataModeOverride p0 dm))) := by
  refine ⟨?_, rfl, ?_, ?_⟩
  · intro m; cases m <;> rfl
  · intro m
    rcases m with _ | m
    · exact ⟨rfl, rfl, rfl, rfl, rfl, rfl⟩
    · cases m <;> exact ⟨rfl, rfl, rfl, rfl, rfl, rfl⟩
  · intro env q dm p0 hval hnorm
    simp only [executeNormalPipeline, hval, hnorm]
    simp only [Bool.true_eq_false, if_false]
    split <;> simp

/-- Witness for C7 at a concrete environment: the plan event of a run
with a `web-search` override carries the overridden plan. -/
theorem c7_witness :
    ((executeNormalPipeline envSuccess "q" (some DataMode.webSearch)).1).get? 1 =
      some (Event.planned (applyDataModeOverride plan0 (some DataMode.webSearch))) :=
  (c7_data_source_override plan0).2.2.2 envSuccess "q" (some DataMode.webSearch)
    plan0 rfl rfl

/-! ## Claim C10: failed data validation never aborts the pipeline -/

/-- C10: a `DataResult` that fails schema validation after the data
phase never aborts the pipeline. The orchestrator's post-phase data
check (lines 224-231) is only logged: whenever the data event carries
`d` — even when `validateDataSchema d` reports invalid — the run still
emits the `generating` progress event, its outcome is either success or
a final widget-validation error (never a data-validation error), and a
successful run's `complete` event still carries `d`'s own provenance,
i.e. widget generation proceeded with that `DataResult` unchanged. -/
theorem c10_data_validation_only_logged (env : Env) (q : String)
    (m : Option DataMode) (d : DataResult)
    (hd : ((executeNormalPipeline env q m).1).get? 3 = some (Event.dataReady d))
    (hfail : (env.validateDataSchema d).valid = false) :
    ((executeNormalPipeline env q m).1).get? 4 =
      some (Event.progress "generating" "Building UI" 70) ∧
    ((executeNormalPipeline env q m).2 = Except.ok () ∨
      ∃ s, (executeNormalPipeline env q m).2 =
        Except.error ("Widget validation failed: " ++ s)) ∧
    ((executeNormalPipeline env q m).2 = Except.ok () →
      ∃ w, ((executeNormalPipeline env q m).1).getLast? =
        some (Event.complete w (jsOrNull d.source))) := by
  rcases pipeline_shape env q m with ⟨e1, h1, -⟩ | ⟨fp, ph, msg, d', s, h1⟩ |
    ⟨fp, ph, msg, d', w, src, h1, hsrc⟩
  · rw [h1] at hd; simp at hd
  · rw [h1] at hd
    simp at hd
    subst hd
    rw [h1]
    exact ⟨by simp, Or.inr ⟨s, rfl⟩, by intro hok; cases hok⟩
  · rw [h1] at hd
    simp at hd
    subst hd
    rw [h1]
    refine ⟨by simp, Or.inl rfl, fun _ => ⟨w, by simp [hsrc]⟩⟩

/-- Witness for C10: an environment whose data validator rejects
everything (so the data phase degraded to the empty dataset, which the
orchestrator's own check then reports as invalid) still proceeds to
widget generation. -/
theorem c10_witness :
    ((executeNormalPipeline envDataInvalid "q" none).1).get? 4 =
      some (Event.progress "generating" "Building UI" 70) :=
  (c10_data_validation_only_logged envDataInvalid "q" none
    { data := [], source := none, confidence := "low" } rfl rfl).1

/-! ## Claim C8: repair idempotence -/

/-- C8, counterexample to the claim as stated: `repairJSON` is not
idempotent. On `",,]"` the first pass rewrites only the second comma
(the global regex of strategy 1 does not revisit the text before a
match), yielding `",]"`; the second pass removes the remaining trailing
comma, yielding `"]"`. -/
theorem c8_counterexample :
    repairJSON (repairJSON ",,]") ≠ repairJSON ",,]" := by decide

/-- Strategy 1 is the identity on comma-free text. -/
theorem s1Go_id (fuel : Nat) (l : List Char) (h : ∀ c ∈ l, ¬ c = ',') :
    s1Go fuel l = l := by
  induction fuel generalizing l with
  | zero => cases l <;> rfl
  | succ f ih =>
    cases l with
    | nil => rfl
    | cons c rest =>
      have hc : ¬ c = ',' := h c (by simp)
      simp only [s1Go, if_neg hc]
      rw [ih rest (fun x hx => h x (by simp [hx]))]

/-- `lastIndexOfAux` never finds an absent character. -/
theorem lastIndexOfAux_notMem (c : Char) (l : List Char) :
    ∀ (i best : Int), (∀ x ∈ l, ¬ x = c) → lastIndexOfAux c l i best = best := by
  induction l with
  | nil => intro i best _; rfl
  | cons x rest ih =>
    intro i best h
    have hx : ¬ x = c := h x (by simp)
    simp only [lastIndexOfAux, if_neg hx]
    exact ih _ _ (fun y hy => h y (by simp [hy]))

/-- `lastIndexOf` of an absent character is `-1`. -/
theorem lastIndexOf_notMem (c : Char) (l : List Char) (h : ∀ x ∈ l, ¬ x = c) :
    lastIndexOf c l = -1 := lastIndexOfAux_notMem c l 0 (-1) h

/-- `lastIndexOfAux` is at least `-1` when starting from sane arguments. -/
theorem lastIndexOfAux_ge (c : Char) (l : List Char) :
    ∀ (i best : Int), -1 ≤ best → 0 ≤ i → -1 ≤ lastIndexOfAux c l i best := by
  induction l with
  | nil => intro i best hb _; exact hb
  | cons x rest ih =>
    intro i best hb hi
    simp only [lastIndexOfAux]
    refine ih _ _ ?_ (by omega)
    split
    · omega
    · exact hb

/-- `lastIndexOf` is always at least `-1`. -/
theorem lastIndexOf_ge (c : Char) (l : List Char) : -1 ≤ lastIndexOf c l :=
  lastIndexOfAux_ge c l 0 (-1) le_rfl (by omega)

/-- Strategy 2 is the identity on quote-free text. -/
theorem strategy2_id (l : List Char) (h : ∀ x ∈ l, ¬ x = '"') :
    strategy2 l = l := by
  simp only [strategy2]
  rw [lastIndexOf_notMem '"' l h, if_neg]
  have h1 := lastIndexOf_ge '}' l
  exact not_lt.mpr (le_trans h1 (le_max_left _ _))

/-- The first strategy-4 regex cannot match a comma-free suffix. -/
theorem s4aMatch_no_comma (l : List Char) (h : ∀ x ∈ l, ¬ x = ',') :
    s4aMatch l = false := by
  cases l with
  | nil => rfl
  | cons c r =>
    have hc : ¬ c = ',' := h c (by simp)
    simp [s4aMatch, hc]

/-- The second strategy-4 regex cannot match a comma-free suffix. -/
theorem s4bMatch_no_comma (l : List Char) (h : ∀ x ∈ l, ¬ x = ',') :
    s4bMatch l = false := by
  cases l with
  | nil => rfl
  | cons c r =>
    have hc : ¬ c = ',' := h c (by simp)
    simp [s4bMatch, hc]

/-- An end-anchored replace whose matcher rejects every comma-free
suffix is the identity on comma-free text. -/
theorem replaceEndAnchored_id (matchAt : List Char → Bool)
    (hm : ∀ l : List Char, (∀ x ∈ l, ¬ x = ',') → matchAt l = false)
    (l : List Char) (h : ∀ x ∈ l, ¬ x = ',') :
    replaceEndAnchored matchAt l = l := by
  induction l with
  | nil => rfl
  | cons c rest ih =>
    simp only [replaceEndAnchored]
    rw [hm _ h]
    simp only [Bool.false_eq_true, if_false]
    rw [ih (fun x hx => h x (by simp [hx]))]

/-- Strategy 6 is the identity on quote-free text. -/
theorem s6Go_id (fuel : Nat) (l : List Char) (h : ∀ x ∈ l, ¬ x = '"') :
    s6Go fuel l = l := by
  induction fuel generalizing l with
  | zero => cases l <;> rfl
  | succ f ih =>
    cases l with
    | nil => rfl
    | cons c rest =>
      have hc : ¬ c = '"' := h c (by simp)
      simp only [s6Go, if_neg hc]
      rw [ih rest (fun x hx => h x (by simp [hx]))]

/-- On text free of commas and quotes, the whole repair reduces to
appending the missing closers counted by strategy 3. -/
theorem repairChars_eq (l : List Char)
    (h : ∀ c ∈ l, ¬ c = ',' ∧ ¬ c = '"') :
    repairChars l =
      l ++ List.replicate (l.count '[' - l.count ']') ']'
        ++ List.replicate (l.count '{' - l.count '}') '}' := by
  have hnc : ∀ c ∈ l, ¬ c = ',' := fun c hc => (h c hc).1
  have hnq : ∀ c ∈ l, ¬ c = '"' := fun c hc => (h c hc).2
  have happ : ∀ x ∈ l ++ List.replicate (l.count '[' - l.count ']') ']'
      ++ List.replicate (l.count '{' - l.count '}') '}', ¬ x = '"' := by
    intro x hx
    rcases List.mem_append.mp hx with hx' | hx'
    · rcases List.mem_append.mp hx' with hx'' | hx''
      · exact hnq x hx''
      · rw [List.eq_of_mem_replicate hx'']; decide
    · rw [List.eq_of_mem_replicate hx']; decide
  simp only [repairChars]
  rw [s1Go_id _ _ hnc, strategy2_id _ hnq,
    replaceEndAnchored_id s4aMatch s4aMatch_no_comma _ hnc,
    replaceEndAnchored_id s4bMatch s4bMatch_no_comma _ hnc,
    s6Go_id _ _ happ, List.append_assoc]

/-- C8 as amended: the repair is idempotent on every string that
contains neither a comma nor a double quote (strategies 1, 2, 4 and 6
are then the identity, and the closers appended by strategy 5 balance
the counts, so a second pass appends nothing). In general idempotence
fails — see the counterexample — because strategy 1's single global pass
can leave a trailing comma for the next pass (`",,]"`), and strategy 2
re-inserts a quote after the quote it inserted on the previous pass. -/
theorem c8_amended_idempotence (s : String)
    (h : ∀ c ∈ s.data, ¬ c = ',' ∧ ¬ c = '"') :
    repairJSON (repairJSON s) = repairJSON s := by
  show String.mk (repairChars (repairChars s.data)) = String.mk (repairChars s.data)
  have h1 := repairChars_eq s.data h
  have hP : ∀ c ∈ repairChars s.data, ¬ c = ',' ∧ ¬ c = '"' := by
    rw [h1]
    intro c hc
    rcases List.mem_append.mp hc with hc' | hc'
    · rcases List.mem_append.mp hc' with hc'' | hc''
      · exact h c hc''
      · rw [List.eq_of_mem_replicate hc'']; exact ⟨by decide, by decide⟩
    · rw [List.eq_of_mem_replicate hc']; exact ⟨by decide, by decide⟩
  rw [repairChars_eq _ hP]
  have hbk : (repairChars s.data).count '[' - (repairChars s.data).count ']' = 0 := by
    rw [h1]
    simp [List.count_append, List.count_replicate]
    omega
  have hbr : (repairChars s.data).count '{' - (repairChars s.data).count '}' = 0 := by
    rw [h1]
    simp [List.count_append, List.count_replicate]
    omega
  rw [hbk, hbr]
  simp

/-- Witness for the amended C8 at a concrete comma-free, quote-free
string: `"[{"` repairs to `"[{]}"`, which a second pass leaves alone. -/
theorem c8_amended_witness :
    repairJSON (repairJSON "[\x7b") = repairJSON "[\x7b" :=
  c8_amended_idempotence "[\x7b" (by decide)


/-- The handler's signature check accepts exactly the requests described
by the claim (the explicit length pre-check is subsumed by byte
equality). -/
theorem verifySlackSignature_iff (env : SlackEnv) (rawBody : String) :
    verifySlackSignature env rawBody = true ↔ signatureAcceptedSpec env rawBody := by
  unfold verifySlackSignature signatureAcceptedSpec
  cases env.timestampHeader with
  | none => simp
  | some timestamp =>
    cases env.signatureHeader with
    | none => simp
    | some signature =>
      cases hpt : env.parseTimestamp timestamp with
      | none => simp [hpt]
      | some requestTime =>
        simp only [hpt]
        by_cases htime : 300 < (env.nowSeconds - requestTime).natAbs
        · apply iff_of_false
          · rw [if_pos htime]
            simp
          · rintro ⟨h1, -⟩
            omega
        · rw [if_neg htime]
          constructor
          · intro hb
            by_cases h1 : ((splitOnChar '=' signature.data []).headD [] ≠ "v0".data ∨
                ((splitOnChar '=' signature.data []).drop 1).headD [] = [])
            · rw [if_pos h1] at hb
              cases hb
            · rw [if_neg h1] at hb
              rw [not_or, not_not] at h1
              by_cases h2 : (env.hmacSha256 env.signingSecret
                  ("v0:" ++ timestamp ++ ":" ++ rawBody)).length ≠
                  (hexDecodeAux (((splitOnChar '=' signature.data []).drop 1).headD [])).length
              · rw [if_pos h2] at hb
                cases hb
              · rw [if_neg h2] at hb
                exact ⟨by omega, h1.1, h1.2, of_decide_eq_true hb⟩
          · rintro ⟨-, hv', hh', hD⟩
            rw [if_neg (by rw [not_or, not_not]; exact ⟨hv', hh'⟩)]
            rw [if_neg (by simp [hD])]
            exact decide_eq_true hD

/-- C9: the Slack events `POST` handler echoes the challenge of a
`url_verification` payload without any signature verification (its
response is unchanged under arbitrary replacement of every
signature-relevant input); for every other parseable payload it answers
401 `invalidSignature` exactly when the request does not carry a
timestamp within five minutes of the current time together with a `v0`
HMAC-SHA256 signature of the raw body whose bytes match the expected
digest (compared by `timingSafeEqual`, modelled as byte equality). -/
theorem c9_slack_post (env : SlackEnv) (rawBody : String) (payload : SlackPayload)
    (hparse : env.parseBody rawBody = some payload) :
    (payload.type = "url_verification" ∧ jsTruthy payload.challenge →
      (∃ c, payload.challenge = some c ∧
        POST env rawBody = SlackResponse.challengeEcho c) ∧
      (∀ tsH sigH now hm secret pt,
        POST (scrubSignatureInputs env tsH sigH now hm secret pt) rawBody =
          POST env rawBody)) ∧
    (¬ (payload.type = "url_verification" ∧ jsTruthy payload.challenge) →
      (POST env rawBody = SlackResponse.invalidSignature ↔
        ¬ signatureAcceptedSpec env rawBody)) := by
  constructor
  · intro hchal
    have hc : ∃ c, payload.challenge = some c := by
      cases hch : payload.challenge with
      | none =>
        rw [hch] at hchal
        simp [jsTruthy] at hchal
      | some c => exact ⟨c, rfl⟩
    obtain ⟨c, hc⟩ := hc
    constructor
    · refine ⟨c, hc, ?_⟩
      unfold POST
      simp only [hparse]
      rw [if_pos hchal, hc]
      rfl
    · intro tsH sigH now hm secret pt
      unfold POST
      have hparse' : (scrubSignatureInputs env tsH sigH now hm secret pt).parseBody
          rawBody = some payload := hparse
      simp only [hparse, hparse']
      rw [if_pos hchal, if_pos hchal]
  · intro hnot
    unfold POST
    simp only [hparse]
    rw [if_neg hnot]
    rw [← verifySlackSignature_iff]
    by_cases hsig : verifySlackSignature env rawBody = true
    · simp [hsig]
      split <;> simp
    · simp [hsig]

/-- Witness for C9: at `slackEnv0` the payload is not a URL
verification, the signature is accepted, and therefore the response is
not a 401. -/
theorem c9_witness :
    (POST slackEnv0 "body" = SlackResponse.invalidSignature ↔
      ¬ signatureAcceptedSpec slackEnv0 "body") ∧
    POST slackEnv0 "body" = SlackResponse.eventAccepted :=
  ⟨(c9_slack_post slackEnv0 "body"
      { type := "event_callback", challenge := none,
        eventType := some "app_mention" } rfl).2 (by simp),
   by decide⟩

end AskTony
